import Mathlib

/-!
Shallow embedding of the netbox-branching core (branch lifecycle engine) for
verification of its natural-language specification.

Sources embedded:
- src/netbox_branching/models/branches.py  (Branch, BranchEvent, sync/merge/provision/deprovision)
- src/netbox_vcs/utilities.py              (activate_branch, get_tables_to_replicate)
- src/netbox_vcs/constants.py              (schema name constants)

Machine times are modelled as Nat, users and request ids as Nat, entity data
as association lists from object id to a payload value.  Database failures and
Python exceptions are modelled with Except / an explicit error type.
-/

/-- Lifecycle statuses of a Branch, from BranchStatusChoices (values fixed by
their uses in branches.py and by the spec's state machine in section 4.1). -/
inductive BranchStatus
  | new
  | provisioning
  | ready
  | syncing
  | merging
  | merged
  | failed
deriving DecidableEq, Repr

/-- Branch lifecycle event types, from BranchEventTypeChoices (values fixed by
their uses in branches.py and by the spec). -/
inductive BranchEventType
  | provisioned
  | synced
  | merged
  | deprovisioned
deriving DecidableEq, Repr

/-- Exceptions that the embedded operations can raise.  AbortRequest and
AbortTransaction mirror utilities.exceptions; exc mirrors a plain Exception
or a database error carrying a message. -/
inductive Err
  | abortRequest (msg : String)
  | abortTransaction
  | exc (msg : String)
deriving DecidableEq, Repr

/-- The kind of operation recorded by a change record (create/update/delete). -/
inductive ChangeAction
  | create
  | update
  | delete
deriving DecidableEq, Repr

/-- One change record (ObjectChange): timestamp, acting user, originating
request id, changed object type, operation kind, target object id and the
recorded payload value. -/
structure ObjectChange where
  id : Nat
  time : Nat
  user : Option Nat
  request_id : Nat
  changed_object_type : Nat
  action : ChangeAction
  object_id : Nat
  value : Nat
deriving DecidableEq, Repr

/-- The data of one namespace: an association list from object id to value. -/
abbrev Data := List (Nat × Nat)

/-- Look up an object id in a namespace's data. -/
def dataGet : Data → Nat → Option Nat
  | [], _ => none
  | (k, v) :: rest, oid => if k = oid then some v else dataGet rest oid

/-- Overwrite the value stored for an object id. -/
def dataSet : Data → Nat → Nat → Data
  | [], _, _ => []
  | (k, v) :: rest, oid, nv => if k = oid then (k, nv) :: rest else (k, v) :: dataSet rest oid nv

/-- Remove an object id from a namespace's data. -/
def dataRemove : Data → Nat → Data
  | [], _ => []
  | (k, v) :: rest, oid => if k = oid then rest else (k, v) :: dataRemove rest oid

/-- Modelled from the spec: ObjectChange.apply (netbox_branching/models/changes.py,
not present under src/) re-applies the recorded operation against a target
namespace's data and raises a database error when the operation cannot be
applied (e.g. a constraint violation). -/
def ObjectChange.apply (c : ObjectChange) (d : Data) : Except String Data :=
  match c.action with
  | .create =>
    match dataGet d c.object_id with
    | some _ => .error "create failed: object already exists"
    | none => .ok (d ++ [(c.object_id, c.value)])
  | .update =>
    match dataGet d c.object_id with
    | some _ => .ok (dataSet d c.object_id c.value)
    | none => .error "update failed: object does not exist"
  | .delete =>
    match dataGet d c.object_id with
    | some _ => .ok (dataRemove d c.object_id)
    | none => .error "delete failed: object does not exist"

/-- Apply a list of change records in order, stopping at the first error
(the loop bodies of Branch.sync and Branch.merge). -/
def replay : List ObjectChange → Data → Except String Data
  | [], d => .ok d
  | c :: cs, d =>
    match c.apply d with
    | .ok d2 => replay cs d2
    | .error e => .error e

/-- Apply a list of change records in order on an autocommit connection (the
sync loop applies each change using the branch's own connection, which Django
keeps in autocommit): each successful application is committed immediately;
at the first error, return the data reached so far together with the error. -/
def replay_autocommit : List ObjectChange → Data → Data × Option String
  | [], d => (d, none)
  | c :: cs, d =>
    match c.apply d with
    | .ok d2 => replay_autocommit cs d2
    | .error e => (d, some e)

/-- Ordering of change records by timestamp (the order_by time clause). -/
def timeLE (a b : ObjectChange) : Prop := a.time ≤ b.time

instance : DecidableRel timeLE := fun a b => Nat.decLe a.time b.time

instance : IsTotal ObjectChange timeLE := ⟨fun a b => Nat.le_total a.time b.time⟩

instance : IsTrans ObjectChange timeLE := ⟨fun _ _ _ h1 h2 => Nat.le_trans h1 h2⟩

/-- Sort change records in ascending timestamp order (order_by('time')). -/
def order_by_time (cs : List ObjectChange) : List ObjectChange :=
  List.insertionSort timeLE cs

/-- The Branch model's persisted fields (branches.py lines 37-121). -/
structure Branch where
  pk : Nat
  name : String
  schema_id : String
  status : BranchStatus
  last_sync : Option Nat
  merged_time : Option Nat
  merged_by : Option Nat
  created : Nat
deriving DecidableEq, Repr

/-- Branch.ready: whether the branch's status is READY. -/
def Branch.ready (b : Branch) : Bool := b.status == BranchStatus.ready

/-- Branch.schema_name: schema prefix (SCHEMA_PREFIX = "branch_") plus the
branch's schema id. -/
def Branch.schema_name (b : Branch) : String := "branch_" ++ b.schema_id

/-- Branch.synced_time: last_sync if set, else the creation time. -/
def Branch.synced_time (b : Branch) : Nat := b.last_sync.getD b.created

/-- One BranchEvent row: time, branch reference, acting user, event type. -/
structure BranchEvent where
  time : Nat
  branch : Nat
  user : Option Nat
  type : BranchEventType
deriving DecidableEq, Repr

/-- A many-to-many field of a model: the related model (identified by its
database table) and the through (join) table. -/
structure M2MField where
  related_model : String
  through_table : String
deriving DecidableEq, Repr

/-- Metadata of one branch-aware model: its database table and its local
many-to-many fields. -/
structure ModelMeta where
  db_table : String
  m2m : List M2MField
deriving DecidableEq, Repr

/-- One database table: name, column list (structure), rows and the sequence
backing the id column's default value. -/
structure Table where
  name : String
  columns : List String
  rows : List (Nat × Nat)
  id_default_seq : String
deriving DecidableEq, Repr

/-- One database schema (namespace): its name and its tables. -/
structure Schema where
  name : String
  tables : List Table
deriving DecidableEq, Repr

/-- The whole observable state: the focused Branch row, the main namespace
(data, change log, AppliedChange links), the branch namespace (data, change
log), branch events, the active-branch context variable, the registry of
branch-aware object types and models, the physical schemas, a permission flag
for CREATE SCHEMA, the current clock and a deletion marker for the Branch row. -/
structure World where
  branch : Branch
  mainData : Data
  mainLog : List ObjectChange
  branchData : Data
  branchLog : List ObjectChange
  applied : List (Nat × Nat)
  events : List BranchEvent
  active_branch : Option Nat
  branchable_object_types : List Nat
  branch_aware_models : List ModelMeta
  db : List Schema
  can_create_schema : Bool
  now : Nat
  branch_deleted : Bool
deriving DecidableEq, Repr

/-- Queryset update of the Branch row's status (Branch.objects.filter(pk).update;
bypasses Branch.save and its active-branch guard). -/
def setStatus (w : World) (s : BranchStatus) : World :=
  { w with branch := { w.branch with status := s } }

/-- BranchEvent.objects.create: append a new event row. -/
def addEvent (w : World) (user : Option Nat) (t : BranchEventType) : World :=
  { w with events := w.events ++ [⟨w.now, w.branch.pk, user, t⟩] }

/-- activate_branch (netbox_vcs/utilities.py lines 37-46): a context manager
setting the active-branch context variable for the duration of a body.  The
source generator has no try/finally around its yield, so when the body raises,
active_branch.reset(token) is skipped; this definition reproduces that
behaviour exactly. -/
def activate_branch (b : Option Nat) (body : World → World × Option Err) (w : World) :
    World × Option Err :=
  let token := w.active_branch
  match body { w with active_branch := b } with
  | (w2, none) => ({ w2 with active_branch := token }, none)
  | (w2, some e) => (w2, some e)

/-- Branch.save (branches.py lines 123-144): refuses to persist while a branch
is active, otherwise persists the in-memory instance fields to the row.  (The
background provisioning job enqueued for a newly created Branch is an external
collaborator and is not modelled.) -/
def Branch.save (w : World) (b : Branch) : World × Option Err :=
  match w.active_branch with
  | some _ => (w, some (Err.abortRequest "Cannot create or modify a branch while a branch is active."))
  | none => ({ w with branch := b }, none)

/-- Branch.get_unsynced_changes (branches.py lines 175-183): main-namespace
change records touching branch-aware object types with time strictly greater
than the branch's synced_time. -/
def Branch.get_unsynced_changes (w : World) : List ObjectChange :=
  w.mainLog.filter fun c =>
    decide (c.changed_object_type ∈ w.branchable_object_types ∧ w.branch.synced_time < c.time)

/-- Branch.get_changes (branches.py lines 163-173): all change records created
within the Branch; empty for a NEW branch, redirected to the AppliedChange
links in main for a MERGED branch, the branch namespace's change log otherwise. -/
def Branch.get_changes (w : World) : List ObjectChange :=
  match w.branch.status with
  | BranchStatus.new => []
  | BranchStatus.merged =>
    w.mainLog.filter fun c => w.applied.any fun p => p.1 == c.id && p.2 == w.branch.pk
  | _ => w.branchLog

/-- The body of Branch.sync's transaction.atomic block (branches.py lines
215-221): replay each unsynced change in ascending time order against the
branch namespace, then raise AbortTransaction when commit is False.
transaction.atomic() at line 215 takes no using argument, so it opens a
transaction on the DEFAULT database alias only, while every change is applied
with change.apply(using=self.connection_name) on the branch's own connection,
which stays in autocommit: each applied change commits immediately on that
connection and is NOT undone when the block exits with an error, so the data
reached before a failure (or before the dry-run abort) persists. -/
def sync_atomic (commit : Bool) (w : World) : World × Option Err :=
  match replay_autocommit (order_by_time (Branch.get_unsynced_changes w)) w.branchData with
  | (d, some e) => ({ w with branchData := d }, some (Err.exc e))
  | (d, none) =>
    if commit then ({ w with branchData := d }, none)
    else ({ w with branchData := d }, some Err.abortTransaction)

/-- The success tail of Branch.sync (branches.py lines 229-233): stamp
last_sync, restore READY, persist via Branch.save, record a SYNCED event. -/
def sync_success (w : World) (user : Option Nat) : World × Option Err :=
  match Branch.save w { w.branch with last_sync := some w.now, status := BranchStatus.ready } with
  | (w2, some e) => (w2, some e)
  | (w2, none) => (addEvent w2 user BranchEventType.synced, none)

/-- Branch.sync (branches.py lines 200-238): apply changes from the main schema
onto the Branch's schema.  Raises when the branch is not READY; flips status to
SYNCING; runs the replay inside activate_branch and a transaction bound to the
default alias; on any error restores status READY and re-raises (changes
already applied on the autocommit branch connection persist); on success
stamps last_sync, saves and records a SYNCED event. -/
def Branch.sync (w : World) (user : Option Nat) (commit : Bool) : World × Option Err :=
  if w.branch.ready then
    match activate_branch (some w.branch.pk) (sync_atomic commit) (setStatus w BranchStatus.syncing) with
    | (w2, some e) => (setStatus w2 BranchStatus.ready, some e)
    | (w2, none) => sync_success w2 user
  else (w, some (Err.exc ("Branch " ++ w.branch.name ++ " is not ready to sync")))

/-- The state of the main namespace mutated inside Branch.merge's transaction:
its data, its change log and the AppliedChange links. -/
structure MainNS where
  data : Data
  log : List ObjectChange
  applied : List (Nat × Nat)
deriving DecidableEq, Repr

/-- The replay loop of Branch.merge (branches.py lines 268-274): apply each
captured change against main; under event_tracking(request) with request.id and
request.user taken from the change record, the resulting write is logged in
main's change log attributed to the change's original user and request id, and
the record_applied_change post_save receiver (netbox_branching/signals.py, not
present under src/; modelled from the spec) links the logged change to the
merging branch. -/
def mergeReplay (bpk now : Nat) : List ObjectChange → MainNS → Except String MainNS
  | [], s => .ok s
  | c :: cs, s =>
    match c.apply s.data with
    | .error e => .error e
    | .ok d =>
      mergeReplay bpk now cs
        ⟨d, s.log ++ [{ c with time := now }], s.applied ++ [(c.id, bpk)]⟩

/-- The body of Branch.merge's transaction.atomic block (branches.py lines
267-276): run the replay loop, then raise AbortTransaction when commit is
False.  An error result leaves main untouched (the atomic block rolls back). -/
def merge_atomic (bpk now : Nat) (changes : List ObjectChange) (commit : Bool) (s : MainNS) :
    Except Err MainNS :=
  match mergeReplay bpk now changes s with
  | .error e => .error (Err.exc e)
  | .ok s2 => if commit then .ok s2 else .error Err.abortTransaction

/-- The success tail of Branch.merge (branches.py lines 285-290): set status
MERGED, stamp merged_time and merged_by, persist via Branch.save, record a
MERGED event. -/
def merge_success (w : World) (user : Option Nat) : World × Option Err :=
  match Branch.save w
      { w.branch with status := BranchStatus.merged, merged_time := some w.now, merged_by := user } with
  | (w2, some e) => (w2, some e)
  | (w2, none) => (addEvent w2 user BranchEventType.merged, none)

/-- Branch.merge (branches.py lines 242-298): apply all changes in the Branch
to the main schema by replaying them in chronological order.  Raises when the
branch is not READY; captures the change list before flipping status to
MERGING; replays inside one atomic transaction; on any error restores status
READY and re-raises; on success stamps merged_time/merged_by, saves and records
a MERGED event. -/
def Branch.merge (w : World) (user : Option Nat) (commit : Bool) : World × Option Err :=
  if w.branch.ready then
    let changes := order_by_time (Branch.get_changes w)
    let w1 := setStatus w BranchStatus.merging
    match merge_atomic w1.branch.pk w1.now changes commit ⟨w1.mainData, w1.mainLog, w1.applied⟩ with
    | .error e => (setStatus w1 BranchStatus.ready, some e)
    | .ok s =>
      merge_success { w1 with mainData := s.data, mainLog := s.log, applied := s.applied } user
  else (w, some (Err.exc ("Branch " ++ w.branch.name ++ " is not ready to merge")))

/-- get_tables_to_replicate (netbox_vcs/utilities.py lines 70-94): the table of
every branch-aware model, plus the through table of every local many-to-many
field whose related model is itself branch-aware; returned as a sorted set. -/
def get_tables_to_replicate (models : List ModelMeta) : List String :=
  let base := models.map (fun m => m.db_table)
  let m2mTables := models.flatMap fun m =>
    (m.m2m.filter fun f => base.contains f.related_model).map fun f => f.through_table
  List.insertionSort (fun a b => a ≤ b) (base ++ m2mTables).dedup

/-- Find a schema by name among the physical schemas. -/
def findSchema (db : List Schema) (n : String) : Option Schema :=
  db.find? fun s => s.name == n

/-- Find a table inside a named schema. -/
def findTable (db : List Schema) (sn tn : String) : Option Table :=
  match findSchema db sn with
  | none => none
  | some s => s.tables.find? fun t => t.name == tn

/-- The database table of the global change log (ObjectChange._meta.db_table). -/
def CHANGELOG_TABLE : String := "core_objectchange"

/-- CREATE TABLE schema.t (LIKE public.t INCLUDING INDEXES) followed by
ALTER TABLE ... ALTER COLUMN id SET DEFAULT nextval(public.t_id_seq), then
INSERT INTO schema.t SELECT * FROM public.t: a structurally identical copy of
the main table, holding a full snapshot of its rows, whose id default is
repointed to the main table's sequence.  Fails when the source table is
missing. -/
def copyTable (db : List Schema) (t : String) : Option Table :=
  match findTable db "public" t with
  | none => none
  | some src =>
    some { name := t, columns := src.columns, rows := src.rows,
           id_default_seq := "public." ++ t ++ "_id_seq" }

/-- Replicate a list of tables from the main schema (the loop of
Branch.provision, branches.py lines 344-357), executed statement by statement
in autocommit (there is no enclosing transaction): each created table persists
immediately; at the first missing source table, return the tables created so
far together with the error. -/
def copyTables_autocommit (db : List Schema) : List String → List Table × Option String
  | [] => ([], none)
  | t :: ts =>
    match copyTable db t with
    | none => ([], some ("relation public." ++ t ++ " does not exist"))
    | some tab =>
      match copyTables_autocommit db ts with
      | (tabs, e) => (tab :: tabs, e)

/-- The empty copy of the global change log created inside a new branch
schema (branches.py lines 330-341): same columns as the source table, no
rows, id default repointed to the main change log's sequence. -/
def clogCopy (src : Table) : Table :=
  { name := CHANGELOG_TABLE, columns := src.columns, rows := [],
    id_default_seq := "public." ++ CHANGELOG_TABLE ++ "_id_seq" }

/-- The cursor work of Branch.provision (branches.py lines 313-357), executed
statement by statement in autocommit with no enclosing transaction: CREATE
SCHEMA (failing, with nothing created, on an existing schema or insufficient
permission), then the empty changelog copy sharing the main log's id sequence,
then a replicated snapshot copy of every table named by
get_tables_to_replicate.  Each completed statement persists immediately, so a
failure partway leaves the schema and the tables created so far in place; the
partial database state is returned alongside the error. -/
def provisionSchema (w : World) : List Schema × Option String :=
  if w.db.any fun s => s.name == Branch.schema_name w.branch then
    (w.db, some ("schema " ++ Branch.schema_name w.branch ++ " already exists"))
  else if !w.can_create_schema then
    (w.db, some "permission denied for database")
  else
    match findTable w.db "public" CHANGELOG_TABLE with
    | none =>
      (w.db ++ [⟨Branch.schema_name w.branch, []⟩],
       some ("relation public." ++ CHANGELOG_TABLE ++ " does not exist"))
    | some src =>
      match copyTables_autocommit w.db (get_tables_to_replicate w.branch_aware_models) with
      | (tabs, e) => (w.db ++ [⟨Branch.schema_name w.branch, clogCopy src :: tabs⟩], e)

/-- Everything Branch.provision does after the initial status update
(branches.py lines 312-370): run the cursor work; on failure set status FAILED
and re-raise (the partially created schema persists); on success set status
READY and record a PROVISIONED event. -/
def provision_body (w : World) (user : Option Nat) : World × Option Err :=
  match provisionSchema w with
  | (db2, some e) => (setStatus { w with db := db2 } BranchStatus.failed, some (Err.exc e))
  | (db2, none) =>
    (addEvent (setStatus { w with db := db2 } BranchStatus.ready) user BranchEventType.provisioned, none)

/-- Branch.provision (branches.py lines 302-372): create the schema and
replicate the main tables; the first step flips status to PROVISIONING. -/
def Branch.provision (w : World) (user : Option Nat) : World × Option Err :=
  provision_body (setStatus w BranchStatus.provisioning) user

/-- Modelled from the spec: the receiver of the branch_deprovisioned signal
(netbox_branching/signals.py, not present under src/) records a DEPROVISIONED
branch event; the signal carries no acting user. -/
def on_branch_deprovisioned (w : World) : World :=
  addEvent w none BranchEventType.deprovisioned

/-- Branch.deprovision (branches.py lines 374-392): DROP SCHEMA IF EXISTS ...
CASCADE (a no-op when the schema does not exist, never an error), then emit the
branch_deprovisioned signal. -/
def Branch.deprovision (w : World) : World :=
  on_branch_deprovisioned
    { w with db := w.db.filter fun s => s.name != Branch.schema_name w.branch }

/-- Branch.delete (branches.py lines 146-153): refuse while a branch is
active; otherwise deprovision the schema and delete the Branch row. -/
def Branch.delete (w : World) : World × Option Err :=
  match w.active_branch with
  | some _ => (w, some (Err.abortRequest "Cannot delete a branch while a branch is active."))
  | none => ({ Branch.deprovision w with branch_deleted := true }, none)

/-- A change record that cannot be applied to an empty namespace (an update of
a non-existent object), used as a concrete failing replay input. -/
def failingChange : ObjectChange :=
  { id := 1, time := 5, user := some 2, request_id := 9, changed_object_type := 7,
    action := ChangeAction.update, object_id := 3, value := 4 }

/-- A change record that applies cleanly to an empty namespace (a create). -/
def cleanChange : ObjectChange :=
  { id := 1, time := 5, user := some 2, request_id := 9, changed_object_type := 7,
    action := ChangeAction.create, object_id := 3, value := 4 }

/-- A concrete READY branch. -/
def B0 : Branch :=
  { pk := 1, name := "b1", schema_id := "ab12cd34", status := BranchStatus.ready,
    last_sync := none, merged_time := none, merged_by := none, created := 0 }

/-- A concrete quiescent world: READY branch, no active branch, empty logs. -/
def W0 : World :=
  { branch := B0, mainData := [], mainLog := [], branchData := [], branchLog := [],
    applied := [], events := [], active_branch := none, branchable_object_types := [7],
    branch_aware_models := [], db := [], can_create_schema := true, now := 10,
    branch_deleted := false }

/-- W0 with one qualifying main-namespace change whose replay fails. -/
def Wfail : World := { W0 with mainLog := [failingChange] }

/-- W0 with one qualifying main-namespace change that replays cleanly. -/
def Wsync : World := { W0 with mainLog := [cleanChange] }

/-- W0 with one branch-namespace change that replays cleanly against main. -/
def Wmerge : World := { W0 with branchLog := [cleanChange] }

/-- W0 with one branch-namespace change whose replay against main fails. -/
def WmergeFail : World := { W0 with branchLog := [failingChange] }

/-- A second qualifying change, later than cleanChange, whose apply fails (an
update of the absent object 99). -/
def failingChange99 : ObjectChange :=
  { id := 2, time := 6, user := some 2, request_id := 9, changed_object_type := 7,
    action := ChangeAction.update, object_id := 99, value := 5 }

/-- W0 with two qualifying main-namespace changes: the first (cleanChange,
t=5) applies, the second (failingChange99, t=6) fails — the input exhibiting
a partial sync. -/
def Wpartial : World := { W0 with mainLog := [cleanChange, failingChange99] }

/-- W0 with a non-READY branch status. -/
def Wnr : World := { W0 with branch := { B0 with status := BranchStatus.merging } }

/-- W0 with a branch active in the calling context. -/
def Wact : World := { W0 with active_branch := some 5 }

/-- The main changelog table of the provisioning test world. -/
def ClogSrc : Table :=
  { name := "core_objectchange", columns := ["id", "time", "data"], rows := [],
    id_default_seq := "public.core_objectchange_id_seq" }

/-- A branch-aware main table with two rows in the provisioning test world. -/
def WidgetSrc : Table :=
  { name := "app_widget", columns := ["id", "label"], rows := [(1, 10), (2, 20)],
    id_default_seq := "public.app_widget_id_seq" }

/-- The expected replica of WidgetSrc inside the branch schema. -/
def WidgetCopy : Table :=
  { name := "app_widget", columns := ["id", "label"], rows := [(1, 10), (2, 20)],
    id_default_seq := "public.app_widget_id_seq" }

/-- W0 with a populated public schema and one branch-aware model, ready to
provision. -/
def Wprov : World :=
  { W0 with branch_aware_models := [⟨"app_widget", []⟩],
            db := [⟨"public", [ClogSrc, WidgetSrc]⟩] }

/-- Wprov without permission to create schemas. -/
def WprovFail : World := { Wprov with can_create_schema := false }

theorem sorted_order_by_time (cs : List ObjectChange) :
    List.Sorted timeLE (order_by_time cs) := List.sorted_insertionSort timeLE cs

theorem perm_order_by_time (cs : List ObjectChange) :
    List.Perm (order_by_time cs) cs := List.perm_insertionSort timeLE cs

theorem mem_get_unsynced_changes (w : World) (c : ObjectChange) :
    c ∈ Branch.get_unsynced_changes w ↔
      c ∈ w.mainLog ∧ c.changed_object_type ∈ w.branchable_object_types ∧
        w.branch.synced_time < c.time := by
  unfold Branch.get_unsynced_changes
  simp [List.mem_filter]

theorem replay_ok_autocommit :
    ∀ (cs : List ObjectChange) (d0 d : Data), replay cs d0 = Except.ok d →
      replay_autocommit cs d0 = (d, none)
  | [], d0, d, h => by
    unfold replay at h
    cases h
    rfl
  | c :: cs, d0, d, h => by
    unfold replay at h
    unfold replay_autocommit
    cases ha : ObjectChange.apply c d0 with
    | error e => rw [ha] at h; cases h
    | ok d2 =>
      rw [ha] at h
      exact replay_ok_autocommit cs d2 d h

theorem sync_eq_error (w : World) (u : Option Nat) (commit : Bool) (d : Data) (e : String)
    (h : w.branch.status = BranchStatus.ready)
    (hr : replay_autocommit (order_by_time (Branch.get_unsynced_changes w)) w.branchData
      = (d, some e)) :
    Branch.sync w u commit =
      ({ w with branchData := d,
                branch := { w.branch with status := BranchStatus.ready },
                active_branch := some w.branch.pk }, some (Err.exc e)) := by
  have hb : w.branch.ready = true := by simp [Branch.ready, h]
  have hr2 : replay_autocommit (order_by_time (Branch.get_unsynced_changes
      { w with branch := { w.branch with status := BranchStatus.syncing },
               active_branch := some w.branch.pk }))
      ({ w with branch := { w.branch with status := BranchStatus.syncing },
                active_branch := some w.branch.pk } : World).branchData = (d, some e) := hr
  unfold Branch.sync activate_branch sync_atomic setStatus
  rw [hb]
  simp only [if_true, hr2]

theorem sync_eq_dry (w : World) (u : Option Nat) (d : Data)
    (h : w.branch.status = BranchStatus.ready)
    (hr : replay_autocommit (order_by_time (Branch.get_unsynced_changes w)) w.branchData
      = (d, none)) :
    Branch.sync w u false =
      ({ w with branchData := d,
                branch := { w.branch with status := BranchStatus.ready },
                active_branch := some w.branch.pk }, some Err.abortTransaction) := by
  have hb : w.branch.ready = true := by simp [Branch.ready, h]
  have hr2 : replay_autocommit (order_by_time (Branch.get_unsynced_changes
      { w with branch := { w.branch with status := BranchStatus.syncing },
               active_branch := some w.branch.pk }))
      ({ w with branch := { w.branch with status := BranchStatus.syncing },
                active_branch := some w.branch.pk } : World).branchData = (d, none) := hr
  unfold Branch.sync activate_branch sync_atomic setStatus
  rw [hb]
  simp only [if_true, hr2, Bool.false_eq_true, if_false]

theorem sync_eq_commit (w : World) (u : Option Nat) (d : Data)
    (h : w.branch.status = BranchStatus.ready)
    (hr : replay (order_by_time (Branch.get_unsynced_changes w)) w.branchData = Except.ok d)
    (ha : w.active_branch = none) :
    Branch.sync w u true =
      ({ w with branchData := d,
                branch := { w.branch with status := BranchStatus.ready, last_sync := some w.now },
                events := w.events ++ [⟨w.now, w.branch.pk, u, BranchEventType.synced⟩] }, none) := by
  have hb : w.branch.ready = true := by simp [Branch.ready, h]
  have hr0 : replay_autocommit (order_by_time (Branch.get_unsynced_changes w)) w.branchData
      = (d, none) := replay_ok_autocommit _ _ _ hr
  have hr2 : replay_autocommit (order_by_time (Branch.get_unsynced_changes
      { w with branch := { w.branch with status := BranchStatus.syncing },
               active_branch := some w.branch.pk }))
      ({ w with branch := { w.branch with status := BranchStatus.syncing },
                active_branch := some w.branch.pk } : World).branchData = (d, none) := hr0
  unfold Branch.sync activate_branch sync_atomic sync_success Branch.save setStatus addEvent
  rw [hb]
  simp only [if_true, hr2, ha]

theorem sync_not_ready (w : World) (u : Option Nat) (commit : Bool)
    (h : ¬ w.branch.status = BranchStatus.ready) :
    Branch.sync w u commit =
      (w, some (Err.exc ("Branch " ++ w.branch.name ++ " is not ready to sync"))) := by
  have hb : w.branch.ready = false := by simp [Branch.ready, h]
  unfold Branch.sync
  rw [hb]
  simp only [Bool.false_eq_true, if_false]

theorem get_changes_ready (w : World) (h : w.branch.status = BranchStatus.ready) :
    Branch.get_changes w = w.branchLog := by
  unfold Branch.get_changes
  rw [h]

theorem merge_eq_error (w : World) (u : Option Nat) (commit : Bool) (e : String)
    (h : w.branch.status = BranchStatus.ready)
    (hm : mergeReplay w.branch.pk w.now (order_by_time (Branch.get_changes w))
      ⟨w.mainData, w.mainLog, w.applied⟩ = Except.error e) :
    Branch.merge w u commit =
      ({ w with branch := { w.branch with status := BranchStatus.ready } }, some (Err.exc e)) := by
  have hb : w.branch.ready = true := by simp [Branch.ready, h]
  have hm2 : mergeReplay
      ({ w with branch := { w.branch with status := BranchStatus.merging } } : World).branch.pk
      ({ w with branch := { w.branch with status := BranchStatus.merging } } : World).now
      (order_by_time (Branch.get_changes w))
      ⟨({ w with branch := { w.branch with status := BranchStatus.merging } } : World).mainData,
        ({ w with branch := { w.branch with status := BranchStatus.merging } } : World).mainLog,
        ({ w with branch := { w.branch with status := BranchStatus.merging } } : World).applied⟩ =
      Except.error e := hm
  unfold Branch.merge merge_atomic setStatus
  rw [hb]
  simp only [if_true, hm2]

theorem merge_eq_dry (w : World) (u : Option Nat) (s : MainNS)
    (h : w.branch.status = BranchStatus.ready)
    (hm : mergeReplay w.branch.pk w.now (order_by_time (Branch.get_changes w))
      ⟨w.mainData, w.mainLog, w.applied⟩ = Except.ok s) :
    Branch.merge w u false =
      ({ w with branch := { w.branch with status := BranchStatus.ready } },
       some Err.abortTransaction) := by
  have hb : w.branch.ready = true := by simp [Branch.ready, h]
  have hm2 : mergeReplay
      ({ w with branch := { w.branch with status := BranchStatus.merging } } : World).branch.pk
      ({ w with branch := { w.branch with status := BranchStatus.merging } } : World).now
      (order_by_time (Branch.get_changes w))
      ⟨({ w with branch := { w.branch with status := BranchStatus.merging } } : World).mainData,
        ({ w with branch := { w.branch with status := BranchStatus.merging } } : World).mainLog,
        ({ w with branch := { w.branch with status := BranchStatus.merging } } : World).applied⟩ =
      Except.ok s := hm
  unfold Branch.merge merge_atomic setStatus
  rw [hb]
  simp only [if_true, hm2, Bool.false_eq_true, if_false]

theorem merge_eq_commit (w : World) (u : Option Nat) (s : MainNS)
    (h : w.branch.status = BranchStatus.ready)
    (hm : mergeReplay w.branch.pk w.now (order_by_time (Branch.get_changes w))
      ⟨w.mainData, w.mainLog, w.applied⟩ = Except.ok s)
    (ha : w.active_branch = none) :
    Branch.merge w u true =
      ({ w with mainData := s.data, mainLog := s.log, applied := s.applied,
                branch := { w.branch with status := BranchStatus.merged, merged_time := some w.now, merged_by := u },
                events := w.events ++ [⟨w.now, w.branch.pk, u, BranchEventType.merged⟩] },
       none) := by
  have hb : w.branch.ready = true := by simp [Branch.ready, h]
  have hm2 : mergeReplay
      ({ w with branch := { w.branch with status := BranchStatus.merging } } : World).branch.pk
      ({ w with branch := { w.branch with status := BranchStatus.merging } } : World).now
      (order_by_time (Branch.get_changes w))
      ⟨({ w with branch := { w.branch with status := BranchStatus.merging } } : World).mainData,
        ({ w with branch := { w.branch with status := BranchStatus.merging } } : World).mainLog,
        ({ w with branch := { w.branch with status := BranchStatus.merging } } : World).applied⟩ =
      Except.ok s := hm
  unfold Branch.merge merge_atomic merge_success Branch.save setStatus addEvent
  rw [hb]
  simp only [if_true, hm2, ha]

theorem merge_not_ready (w : World) (u : Option Nat) (commit : Bool)
    (h : ¬ w.branch.status = BranchStatus.ready) :
    Branch.merge w u commit =
      (w, some (Err.exc ("Branch " ++ w.branch.name ++ " is not ready to merge"))) := by
  have hb : w.branch.ready = false := by simp [Branch.ready, h]
  unfold Branch.merge
  rw [hb]
  simp only [Bool.false_eq_true, if_false]

theorem mergeReplay_ok (bpk now : Nat) :
    ∀ (cs : List ObjectChange) (s s2 : MainNS),
      mergeReplay bpk now cs s = Except.ok s2 →
      s2.log = s.log ++ cs.map (fun c => { c with time := now }) ∧
      s2.applied = s.applied ++ cs.map (fun c => (c.id, bpk))
  | [], s, s2, h => by
    unfold mergeReplay at h
    cases h
    simp
  | c :: cs, s, s2, h => by
    unfold mergeReplay at h
    cases ha : ObjectChange.apply c s.data with
    | error e => rw [ha] at h; cases h
    | ok d =>
      rw [ha] at h
      obtain ⟨h1, h2⟩ := mergeReplay_ok bpk now cs _ s2 h
      refine ⟨?_, ?_⟩
      · rw [h1]; simp
      · rw [h2]; simp

theorem copyTables_mem (db : List Schema) :
    ∀ (ts : List String) (tabs : List Table), copyTables_autocommit db ts = (tabs, none) →
      ∀ t ∈ ts, ∃ src, findTable db "public" t = some src ∧
        ({ name := t, columns := src.columns, rows := src.rows,
           id_default_seq := "public." ++ t ++ "_id_seq" } : Table) ∈ tabs
  | [], tabs, _, t, ht => absurd ht (List.not_mem_nil t)
  | t0 :: ts, tabs, h, t, ht => by
    unfold copyTables_autocommit at h
    cases hc : copyTable db t0 with
    | none =>
      rw [hc] at h
      injection h with h1 h2
      exact Option.noConfusion h2
    | some tab =>
      rw [hc] at h
      cases hcs : copyTables_autocommit db ts with
      | mk tabs2 e2 =>
        rw [hcs] at h
        injection h with h1 h2
        subst h1
        subst h2
        rcases List.mem_cons.mp ht with h0 | h0
        · subst h0
          unfold copyTable at hc
          cases hf : findTable db "public" t with
          | none => rw [hf] at hc; cases hc
          | some src =>
            rw [hf] at hc
            cases hc
            exact ⟨src, rfl, List.mem_cons_self _ _⟩
        · obtain ⟨src, h1b, h2b⟩ := copyTables_mem db ts tabs2 hcs t h0
          exact ⟨src, h1b, List.mem_cons_of_mem _ h2b⟩

theorem provisionSchema_ok (w : World) (src : Table) (tabs : List Table)
    (hnew : (w.db.any fun s => s.name == Branch.schema_name w.branch) = false)
    (hperm : w.can_create_schema = true)
    (hclog : findTable w.db "public" CHANGELOG_TABLE = some src)
    (htabs : copyTables_autocommit w.db (get_tables_to_replicate w.branch_aware_models)
      = (tabs, none)) :
    provisionSchema w =
      (w.db ++ [⟨Branch.schema_name w.branch, clogCopy src :: tabs⟩], none) := by
  unfold provisionSchema
  rw [hnew, hperm]
  simp only [Bool.false_eq_true, if_false, Bool.not_true, hclog, htabs]

theorem provision_eq_ok (w : World) (u : Option Nat) (db2 : List Schema)
    (hps : provisionSchema w = (db2, none)) :
    Branch.provision w u =
      ({ w with db := db2,
                branch := { w.branch with status := BranchStatus.ready },
                events := w.events ++ [⟨w.now, w.branch.pk, u, BranchEventType.provisioned⟩] },
       none) := by
  have hps2 : provisionSchema (setStatus w BranchStatus.provisioning) = (db2, none) := hps
  unfold Branch.provision provision_body
  rw [hps2]
  rfl

theorem provision_eq_error (w : World) (u : Option Nat) (db2 : List Schema) (e : String)
    (hps : provisionSchema w = (db2, some e)) :
    Branch.provision w u =
      ({ w with db := db2,
                branch := { w.branch with status := BranchStatus.failed } },
       some (Err.exc e)) := by
  have hps2 : provisionSchema (setStatus w BranchStatus.provisioning) = (db2, some e) := hps
  unfold Branch.provision provision_body
  rw [hps2]
  rfl

theorem deprovision_db_gone (w : World) :
    findSchema (Branch.deprovision w).db (Branch.schema_name w.branch) = none := by
  unfold Branch.deprovision on_branch_deprovisioned addEvent findSchema
  rw [List.find?_eq_none]
  intro x hx
  have h2 := (List.mem_filter.mp hx).2
  simp only [bne_iff_ne, ne_eq, decide_eq_true_eq] at h2
  simp only [beq_iff_eq]
  exact h2

theorem deprovision_events (w : World) :
    (Branch.deprovision w).events =
      w.events ++ [⟨w.now, w.branch.pk, none, BranchEventType.deprovisioned⟩] := rfl

theorem deprovision_idem_db (w : World) :
    (Branch.deprovision (Branch.deprovision w)).db = (Branch.deprovision w).db := by
  unfold Branch.deprovision on_branch_deprovisioned addEvent
  simp only [List.filter_filter]
  apply List.filter_congr
  intro x _
  simp [Bool.and_self]

theorem deprovision_noop_db (w : World)
    (h : findSchema w.db (Branch.schema_name w.branch) = none) :
    (Branch.deprovision w).db = w.db := by
  show List.filter (fun s => s.name != Branch.schema_name w.branch) w.db = w.db
  unfold findSchema at h
  rw [List.find?_eq_none] at h
  apply List.filter_eq_self.mpr
  intro x hx
  have h2 := h x hx
  simp only [beq_iff_eq] at h2
  simp [bne_iff_ne]
  exact h2

theorem delete_eq (w : World) (ha : w.active_branch = none) :
    Branch.delete w = ({ Branch.deprovision w with branch_deleted := true }, none) := by
  unfold Branch.delete
  rw [ha]

theorem delete_blocked (w : World) (x : Nat) (ha : w.active_branch = some x) :
    Branch.delete w =
      (w, some (Err.abortRequest "Cannot delete a branch while a branch is active.")) := by
  unfold Branch.delete
  rw [ha]

theorem save_blocked (w : World) (b : Branch) (x : Nat) (ha : w.active_branch = some x) :
    Branch.save w b =
      (w, some (Err.abortRequest "Cannot create or modify a branch while a branch is active.")) := by
  unfold Branch.save
  rw [ha]

/-- Claim C1 (code bug): for every branch in status ready, a replay failure
during sync() does restore status to ready, leave last_sync unchanged, record
no event and propagate the original error — but the atomic unit of work does
NOT cover the replayed writes: transaction.atomic() at branches.py line 215
binds only the default database alias while each change is applied with
change.apply(using=self.connection_name) on the branch's autocommit
connection, so every change applied before the failure persists in the branch
namespace.  At the concrete input Wpartial (branch data initially empty, two
qualifying changes of which the first applies and the second fails), the
failed sync leaves the first change's write behind: a partially-synced state
is observed, contradicting the claim and the spec. -/
theorem sync_partial_state_on_failure :
    Wpartial.branch.status = BranchStatus.ready ∧
    Wpartial.branchData = [] ∧
    (Branch.sync Wpartial none true).2 = some (Err.exc "update failed: object does not exist") ∧
    (Branch.sync Wpartial none true).1.branch.status = BranchStatus.ready ∧
    (Branch.sync Wpartial none true).1.branch.last_sync = Wpartial.branch.last_sync ∧
    (Branch.sync Wpartial none true).1.events = Wpartial.events ∧
    (Branch.sync Wpartial none true).1.branchData = [(3, 4)] :=
  ⟨rfl, rfl, rfl, rfl, rfl, rfl, rfl⟩

/-- Claim C2: for every branch in status ready, if replay of any change record
during merge() fails, the whole unit of work rolls back leaving main's data,
change log and AppliedChange links identical to their pre-merge state, the
branch's status reverts to ready, merged_time and merged_by remain unset, no
event is recorded, and the error propagates unchanged. -/
theorem merge_failure_rolls_back (w : World) (u : Option Nat) (commit : Bool) (e : String)
    (h : w.branch.status = BranchStatus.ready)
    (hm : mergeReplay w.branch.pk w.now (order_by_time (Branch.get_changes w))
      ⟨w.mainData, w.mainLog, w.applied⟩ = Except.error e) :
    (Branch.merge w u commit).2 = some (Err.exc e) ∧
    (Branch.merge w u commit).1.mainData = w.mainData ∧
    (Branch.merge w u commit).1.mainLog = w.mainLog ∧
    (Branch.merge w u commit).1.applied = w.applied ∧
    (Branch.merge w u commit).1.branch.status = BranchStatus.ready ∧
    (Branch.merge w u commit).1.branch.merged_time = w.branch.merged_time ∧
    (Branch.merge w u commit).1.branch.merged_by = w.branch.merged_by ∧
    (Branch.merge w u commit).1.events = w.events := by
  rw [merge_eq_error w u commit e h hm]
  exact ⟨rfl, rfl, rfl, rfl, rfl, rfl, rfl, rfl⟩

/-- Witness for C2 at a concrete world with one failing branch change. -/
theorem merge_failure_rolls_back_witness :
    (Branch.merge WmergeFail none true).2 = some (Err.exc "update failed: object does not exist") ∧
    (Branch.merge WmergeFail none true).1.mainData = WmergeFail.mainData ∧
    (Branch.merge WmergeFail none true).1.mainLog = WmergeFail.mainLog ∧
    (Branch.merge WmergeFail none true).1.applied = WmergeFail.applied ∧
    (Branch.merge WmergeFail none true).1.branch.status = BranchStatus.ready ∧
    (Branch.merge WmergeFail none true).1.branch.merged_time = WmergeFail.branch.merged_time ∧
    (Branch.merge WmergeFail none true).1.branch.merged_by = WmergeFail.branch.merged_by ∧
    (Branch.merge WmergeFail none true).1.events = WmergeFail.events :=
  merge_failure_rolls_back WmergeFail none true "update failed: object does not exist" rfl rfl

/-- Claim C5: for every branch whose status is not ready, sync() and merge()
raise an error synchronously before any side effect: the returned world is
exactly the input world (no change applied, no status transition persisted,
no event recorded). -/
theorem non_ready_rejected (w : World) (u : Option Nat) (commit : Bool)
    (h : ¬ w.branch.status = BranchStatus.ready) :
    Branch.sync w u commit =
      (w, some (Err.exc ("Branch " ++ w.branch.name ++ " is not ready to sync"))) ∧
    Branch.merge w u commit =
      (w, some (Err.exc ("Branch " ++ w.branch.name ++ " is not ready to merge"))) :=
  ⟨sync_not_ready w u commit h, merge_not_ready w u commit h⟩

/-- Witness for C5 at a concrete world whose branch is in status merging. -/
theorem non_ready_rejected_witness :
    Branch.sync Wnr none true =
      (Wnr, some (Err.exc ("Branch " ++ Wnr.branch.name ++ " is not ready to sync"))) ∧
    Branch.merge Wnr none true =
      (Wnr, some (Err.exc ("Branch " ++ Wnr.branch.name ++ " is not ready to merge"))) :=
  non_ready_rejected Wnr none true (by decide)

/-- Claim C6: whenever a branch namespace is active in the calling context,
saving (creating or modifying) or deleting a Branch fails with an abort error
and persists no change: the returned world is exactly the input world. -/
theorem branch_mutation_guard (w : World) (b : Branch) (x : Nat)
    (ha : w.active_branch = some x) :
    Branch.save w b =
      (w, some (Err.abortRequest "Cannot create or modify a branch while a branch is active.")) ∧
    Branch.delete w =
      (w, some (Err.abortRequest "Cannot delete a branch while a branch is active.")) :=
  ⟨save_blocked w b x ha, delete_blocked w x ha⟩

/-- Witness for C6 at a concrete world with an active branch. -/
theorem branch_mutation_guard_witness :
    Branch.save Wact B0 =
      (Wact, some (Err.abortRequest "Cannot create or modify a branch while a branch is active.")) ∧
    Branch.delete Wact =
      (Wact, some (Err.abortRequest "Cannot delete a branch while a branch is active.")) :=
  branch_mutation_guard Wact B0 5 rfl

/-- Claim C7 (code bug): activate_branch does NOT restore the previous
active-namespace value on the error exit path.  The context manager's
generator has no try/finally around its yield (netbox_vcs/utilities.py lines
37-46), so when the body raises, the reset is skipped: after a failing body,
and equally after a failing Branch.sync, the branch is left active even though
no branch was active before the call. -/
theorem activate_branch_leak_on_error :
    W0.active_branch = none ∧
    (activate_branch (some 1) (fun w => (w, some (Err.exc "replay failed"))) W0).1.active_branch
      = some 1 ∧
    Wfail.active_branch = none ∧
    (Branch.sync Wfail none true).1.active_branch = some 1 :=
  ⟨rfl, rfl, rfl, rfl⟩

/-- Counterexample for C10 as stated: a dry-run sync over a failing change
record does not raise AbortTransaction; the replay error propagates instead. -/
theorem dry_run_abort_counterexample :
    Wfail.branch.status = BranchStatus.ready ∧ Wfail.active_branch = none ∧
    (Branch.sync Wfail none false).2 = some (Err.exc "update failed: object does not exist") ∧
    (Branch.sync Wfail none false).2 ≠ some Err.abortTransaction := by
  refine ⟨rfl, rfl, rfl, ?_⟩
  decide

/-- Claim C10 (amended): for every branch in status ready whose replay itself
succeeds, calling sync() or merge() with commit=False executes the replay and
always exits through the failure path: AbortTransaction is raised to the
caller, status is restored to ready, last_sync, merged_time and merged_by are
left unchanged and no event is recorded — a dry run never reaches the success
postconditions.  Merge's unit of work is rolled back (main data, change log
and AppliedChange links unchanged); sync's replayed changes, however, persist
in the branch namespace (branchData becomes the replay result d), because the
transaction binds only the default alias while changes apply on the branch's
autocommit connection.  (When a replay step itself fails, the failure path is
still taken but the replay error propagates instead of AbortTransaction; see
the counterexample.) -/
theorem dry_run_spec (w : World) (u : Option Nat) (d : Data) (s : MainNS)
    (h : w.branch.status = BranchStatus.ready)
    (hr : replay_autocommit (order_by_time (Branch.get_unsynced_changes w)) w.branchData
      = (d, none))
    (hm : mergeReplay w.branch.pk w.now (order_by_time (Branch.get_changes w))
      ⟨w.mainData, w.mainLog, w.applied⟩ = Except.ok s) :
    (Branch.sync w u false).2 = some Err.abortTransaction ∧
    (Branch.sync w u false).1.branchData = d ∧
    (Branch.sync w u false).1.branch.status = BranchStatus.ready ∧
    (Branch.sync w u false).1.branch.last_sync = w.branch.last_sync ∧
    (Branch.sync w u false).1.events = w.events ∧
    (Branch.merge w u false).2 = some Err.abortTransaction ∧
    (Branch.merge w u false).1.mainData = w.mainData ∧
    (Branch.merge w u false).1.mainLog = w.mainLog ∧
    (Branch.merge w u false).1.applied = w.applied ∧
    (Branch.merge w u false).1.branch.status = BranchStatus.ready ∧
    (Branch.merge w u false).1.branch.merged_time = w.branch.merged_time ∧
    (Branch.merge w u false).1.branch.merged_by = w.branch.merged_by ∧
    (Branch.merge w u false).1.events = w.events := by
  rw [sync_eq_dry w u d h hr, merge_eq_dry w u s h hm]
  exact ⟨rfl, rfl, rfl, rfl, rfl, rfl, rfl, rfl, rfl, rfl, rfl, rfl, rfl⟩

/-- Witness for the amended C10 at a concrete world with one qualifying clean
change: the dry run aborts with AbortTransaction on both paths, yet the
replayed write persists in the branch namespace (branchData becomes [(3, 4)]
although Wsync.branchData is empty). -/
theorem dry_run_spec_witness :
    (Branch.sync Wsync none false).2 = some Err.abortTransaction ∧
    (Branch.sync Wsync none false).1.branchData = [(3, 4)] ∧
    (Branch.sync Wsync none false).1.branch.status = BranchStatus.ready ∧
    (Branch.sync Wsync none false).1.branch.last_sync = Wsync.branch.last_sync ∧
    (Branch.sync Wsync none false).1.events = Wsync.events ∧
    (Branch.merge Wsync none false).2 = some Err.abortTransaction ∧
    (Branch.merge Wsync none false).1.mainData = Wsync.mainData ∧
    (Branch.merge Wsync none false).1.mainLog = Wsync.mainLog ∧
    (Branch.merge Wsync none false).1.applied = Wsync.applied ∧
    (Branch.merge Wsync none false).1.branch.status = BranchStatus.ready ∧
    (Branch.merge Wsync none false).1.branch.merged_time = Wsync.branch.merged_time ∧
    (Branch.merge Wsync none false).1.branch.merged_by = Wsync.branch.merged_by ∧
    (Branch.merge Wsync none false).1.events = Wsync.events :=
  dry_run_spec Wsync none [(3, 4)] ⟨[], [cleanChange], []⟩ rfl rfl rfl

/-- Claim C4: for every branch in status ready with no branch active in the
calling context, a successful sync() with commit=True applies exactly the
main-namespace change records touching branch-aware object types whose
timestamp is strictly greater than the branch's effective last-sync time
(last_sync if set, else the creation time) in ascending timestamp order (the
branch data becomes the replay of that sorted list), updates last_sync to the
current time, returns status to ready and records a synced event — including
when the qualifying set is empty. -/
theorem sync_commit_success_spec (w : World) (u : Option Nat) (d : Data)
    (h : w.branch.status = BranchStatus.ready)
    (hr : replay (order_by_time (Branch.get_unsynced_changes w)) w.branchData = Except.ok d)
    (ha : w.active_branch = none) :
    Branch.sync w u true =
      ({ w with branchData := d,
                branch := { w.branch with status := BranchStatus.ready, last_sync := some w.now },
                events := w.events ++ [⟨w.now, w.branch.pk, u, BranchEventType.synced⟩] }, none) ∧
    (∀ c, c ∈ order_by_time (Branch.get_unsynced_changes w) ↔
      (c ∈ w.mainLog ∧ c.changed_object_type ∈ w.branchable_object_types ∧
        w.branch.synced_time < c.time)) ∧
    List.Sorted timeLE (order_by_time (Branch.get_unsynced_changes w)) ∧
    List.Perm (order_by_time (Branch.get_unsynced_changes w)) (Branch.get_unsynced_changes w) ∧
    Branch.synced_time w.branch = w.branch.last_sync.getD w.branch.created := by
  refine ⟨sync_eq_commit w u d h hr ha, ?_, sorted_order_by_time _, perm_order_by_time _, rfl⟩
  intro c
  rw [show (c ∈ order_by_time (Branch.get_unsynced_changes w)) ↔
      c ∈ Branch.get_unsynced_changes w from (perm_order_by_time _).mem_iff]
  exact mem_get_unsynced_changes w c

/-- Witness for C4 at a concrete world with one qualifying clean change. -/
theorem sync_commit_success_spec_witness :
    Branch.sync Wsync none true =
      ({ Wsync with branchData := [(3, 4)],
                    branch := { Wsync.branch with status := BranchStatus.ready, last_sync := some Wsync.now },
                    events := Wsync.events ++ [⟨Wsync.now, Wsync.branch.pk, none, BranchEventType.synced⟩] }, none) ∧
    (∀ c, c ∈ order_by_time (Branch.get_unsynced_changes Wsync) ↔
      (c ∈ Wsync.mainLog ∧ c.changed_object_type ∈ Wsync.branchable_object_types ∧
        Wsync.branch.synced_time < c.time)) ∧
    List.Sorted timeLE (order_by_time (Branch.get_unsynced_changes Wsync)) ∧
    List.Perm (order_by_time (Branch.get_unsynced_changes Wsync)) (Branch.get_unsynced_changes Wsync) ∧
    Branch.synced_time Wsync.branch = Wsync.branch.last_sync.getD Wsync.branch.created :=
  sync_commit_success_spec Wsync none [(3, 4)] rfl rfl rfl

/-- Claim C3: for every branch in status ready with no branch active in the
calling context, a successful merge() with commit=True replays the full list
of change records ever recorded in the branch's namespace (get_changes is the
whole branch change log, not merely unsynced records) against the main
namespace in ascending timestamp order; each replayed write is logged in
main's change log attributed to the change record's original acting user and
originating request identifier (and linked to the branch as an AppliedChange);
and on success status becomes merged, merged_time and merged_by are stamped,
and a merged event is recorded. -/
theorem merge_commit_success_spec (w : World) (u : Option Nat) (s : MainNS)
    (h : w.branch.status = BranchStatus.ready)
    (hm : mergeReplay w.branch.pk w.now (order_by_time (Branch.get_changes w))
      ⟨w.mainData, w.mainLog, w.applied⟩ = Except.ok s)
    (ha : w.active_branch = none) :
    Branch.merge w u true =
      ({ w with mainData := s.data, mainLog := s.log, applied := s.applied,
                branch := { w.branch with status := BranchStatus.merged, merged_time := some w.now, merged_by := u },
                events := w.events ++ [⟨w.now, w.branch.pk, u, BranchEventType.merged⟩] }, none) ∧
    Branch.get_changes w = w.branchLog ∧
    s.log = w.mainLog ++ (order_by_time w.branchLog).map (fun c => { c with time := w.now }) ∧
    s.applied = w.applied ++ (order_by_time w.branchLog).map (fun c => (c.id, w.branch.pk)) ∧
    (∀ c ∈ order_by_time w.branchLog,
      ({ c with time := w.now } : ObjectChange) ∈ s.log ∧
      ({ c with time := w.now } : ObjectChange).user = c.user ∧
      ({ c with time := w.now } : ObjectChange).request_id = c.request_id) ∧
    List.Sorted timeLE (order_by_time w.branchLog) ∧
    List.Perm (order_by_time w.branchLog) w.branchLog := by
  have hg : Branch.get_changes w = w.branchLog := get_changes_ready w h
  have hm2 : mergeReplay w.branch.pk w.now (order_by_time w.branchLog)
      ⟨w.mainData, w.mainLog, w.applied⟩ = Except.ok s := by
    rw [← hg]; exact hm
  obtain ⟨hlog, happ⟩ := mergeReplay_ok w.branch.pk w.now (order_by_time w.branchLog)
    ⟨w.mainData, w.mainLog, w.applied⟩ s hm2
  refine ⟨merge_eq_commit w u s h hm ha, hg, hlog, happ, ?_,
    sorted_order_by_time _, perm_order_by_time _⟩
  intro c hc
  refine ⟨?_, rfl, rfl⟩
  rw [hlog]
  exact List.mem_append_right _ (List.mem_map_of_mem _ hc)

/-- Witness for C3 at a concrete world with one clean branch change. -/
theorem merge_commit_success_spec_witness :
    Branch.merge Wmerge none true =
      ({ Wmerge with
          mainData := (⟨[(3, 4)], [{ cleanChange with time := 10 }], [(1, 1)]⟩ : MainNS).data,
          mainLog := (⟨[(3, 4)], [{ cleanChange with time := 10 }], [(1, 1)]⟩ : MainNS).log,
          applied := (⟨[(3, 4)], [{ cleanChange with time := 10 }], [(1, 1)]⟩ : MainNS).applied,
          branch := { Wmerge.branch with status := BranchStatus.merged, merged_time := some Wmerge.now, merged_by := none },
          events := Wmerge.events ++ [⟨Wmerge.now, Wmerge.branch.pk, none, BranchEventType.merged⟩] }, none) ∧
    Branch.get_changes Wmerge = Wmerge.branchLog ∧
    (⟨[(3, 4)], [{ cleanChange with time := 10 }], [(1, 1)]⟩ : MainNS).log =
      Wmerge.mainLog ++ (order_by_time Wmerge.branchLog).map (fun c => { c with time := Wmerge.now }) ∧
    (⟨[(3, 4)], [{ cleanChange with time := 10 }], [(1, 1)]⟩ : MainNS).applied =
      Wmerge.applied ++ (order_by_time Wmerge.branchLog).map (fun c => (c.id, Wmerge.branch.pk)) ∧
    (∀ c ∈ order_by_time Wmerge.branchLog,
      ({ c with time := Wmerge.now } : ObjectChange) ∈
        (⟨[(3, 4)], [{ cleanChange with time := 10 }], [(1, 1)]⟩ : MainNS).log ∧
      ({ c with time := Wmerge.now } : ObjectChange).user = c.user ∧
      ({ c with time := Wmerge.now } : ObjectChange).request_id = c.request_id) ∧
    List.Sorted timeLE (order_by_time Wmerge.branchLog) ∧
    List.Perm (order_by_time Wmerge.branchLog) Wmerge.branchLog :=
  merge_commit_success_spec Wmerge none
    ⟨[(3, 4)], [{ cleanChange with time := 10 }], [(1, 1)]⟩ rfl rfl rfl

/-- Claim C8: provision() first transitions status to provisioning; on any
failure of the cursor work status becomes failed, the error is re-raised and
no event is recorded (the statements already executed persist, since the work
runs in autocommit); on success (new schema creatable, changelog source and
every replicated source table present) it creates the derived namespace
containing an empty copy of the change-log table sharing the main change log's
id sequence, plus, for every table named by get_tables_to_replicate (model
tables and qualifying M2M through tables), a structurally identical copy
populated with a full snapshot of the main table's rows whose id default is
repointed to the main sequence; status becomes ready and a provisioned event
is recorded. -/
theorem provision_spec (w : World) (u : Option Nat) :
    Branch.provision w u = provision_body (setStatus w BranchStatus.provisioning) u ∧
    (∀ e, (Branch.provision w u).2 = some e →
      (Branch.provision w u).1.branch.status = BranchStatus.failed ∧
      (Branch.provision w u).1.events = w.events) ∧
    (∀ src tabs,
      (w.db.any fun sc => sc.name == Branch.schema_name w.branch) = false →
      w.can_create_schema = true →
      findTable w.db "public" CHANGELOG_TABLE = some src →
      copyTables_autocommit w.db (get_tables_to_replicate w.branch_aware_models)
        = (tabs, none) →
      (Branch.provision w u =
        ({ w with db := w.db ++ [⟨Branch.schema_name w.branch, clogCopy src :: tabs⟩],
                  branch := { w.branch with status := BranchStatus.ready },
                  events := w.events ++ [⟨w.now, w.branch.pk, u, BranchEventType.provisioned⟩] }, none) ∧
       ∀ t ∈ get_tables_to_replicate w.branch_aware_models, ∃ src2,
         findTable w.db "public" t = some src2 ∧
         ({ name := t, columns := src2.columns, rows := src2.rows,
            id_default_seq := "public." ++ t ++ "_id_seq" } : Table) ∈ tabs)) := by
  refine ⟨rfl, ?_, ?_⟩
  · intro e he
    cases hps : provisionSchema w with
    | mk db2 oe =>
      cases oe with
      | none =>
        rw [provision_eq_ok w u db2 hps] at he
        simp at he
      | some e2 =>
        rw [provision_eq_error w u db2 e2 hps]
        exact ⟨rfl, rfl⟩
  · intro src tabs h1 h2 h3 h4
    have hps := provisionSchema_ok w src tabs h1 h2 h3 h4
    exact ⟨provision_eq_ok w u _ hps, copyTables_mem w.db _ tabs h4⟩

/-- Witness for C8: a successful provision over a populated main schema, and a
failed provision without CREATE SCHEMA permission. -/
theorem provision_spec_witness :
    Branch.provision Wprov none =
      ({ Wprov with db := Wprov.db ++ [⟨Branch.schema_name Wprov.branch, clogCopy ClogSrc :: [WidgetCopy]⟩],
                    branch := { Wprov.branch with status := BranchStatus.ready },
                    events := Wprov.events ++ [⟨Wprov.now, Wprov.branch.pk, none, BranchEventType.provisioned⟩] }, none) ∧
    (Branch.provision WprovFail none).1.branch.status = BranchStatus.failed ∧
    (Branch.provision WprovFail none).1.events = WprovFail.events := by
  have hs := (provision_spec Wprov none).2.2 ClogSrc [WidgetCopy] rfl rfl rfl rfl
  have hf := (provision_spec WprovFail none).2.1 (Err.exc "permission denied for database") rfl
  exact ⟨hs.1, hf.1, hf.2⟩

/-- Claim C9: deprovision() drops the branch's schema unconditionally (it is
absent afterwards), is idempotent on the database and a no-op on it when the
schema does not exist (safe to call in that case), records a deprovisioned
event, and is invoked automatically by Branch.delete. -/
theorem deprovision_spec (w : World) (ha : w.active_branch = none) :
    findSchema (Branch.deprovision w).db (Branch.schema_name w.branch) = none ∧
    (Branch.deprovision (Branch.deprovision w)).db = (Branch.deprovision w).db ∧
    (findSchema w.db (Branch.schema_name w.branch) = none →
      (Branch.deprovision w).db = w.db) ∧
    (Branch.deprovision w).events =
      w.events ++ [⟨w.now, w.branch.pk, none, BranchEventType.deprovisioned⟩] ∧
    Branch.delete w = ({ Branch.deprovision w with branch_deleted := true }, none) :=
  ⟨deprovision_db_gone w, deprovision_idem_db w, deprovision_noop_db w,
   deprovision_events w, delete_eq w ha⟩

/-- Witness for C9 at a concrete world with no schemas (the missing-namespace
case) and no active branch. -/
theorem deprovision_spec_witness :
    findSchema (Branch.deprovision W0).db (Branch.schema_name W0.branch) = none ∧
    (Branch.deprovision (Branch.deprovision W0)).db = (Branch.deprovision W0).db ∧
    (Branch.deprovision W0).db = W0.db ∧
    (Branch.deprovision W0).events =
      W0.events ++ [⟨W0.now, W0.branch.pk, none, BranchEventType.deprovisioned⟩] ∧
    Branch.delete W0 = ({ Branch.deprovision W0 with branch_deleted := true }, none) :=
  ⟨(deprovision_spec W0 rfl).1, (deprovision_spec W0 rfl).2.1,
   (deprovision_spec W0 rfl).2.2.1 rfl, (deprovision_spec W0 rfl).2.2.2.1,
   (deprovision_spec W0 rfl).2.2.2.2⟩
